import Mathlib

/-!
Verification development for the NexusOptim field-node firmware
(`src/hardware/firmware`).  The definitions below are a shallow embedding of
the C sources:

* `lorawan_handler.c` — the LoRaWAN uplink protocol engine (state machine,
  join processing, duty-cycled `lorawan_send`);
* `main_electrical.c` — the power-factor computation, the power-quality
  grading function `calculate_power_quality_grade`, and the safety task's
  emergency-transmission path (`vSafetyTask`);
* `main_water.c` — the leak-detection trend computation of
  `vLeakDetectionTask`.

Machine integers are modelled as `Nat` with explicit reductions modulo
`2^8 / 2^16 / 2^32` where C overflow semantics matter; C `float` values are
modelled as `ℚ`.  Environment inputs (the hardware timer, radio RSSI/SNR,
received bytes) are passed as explicit parameters.
-/

/-! ## LoRaWAN engine state (lorawan_handler.h / lorawan_handler.c) -/

/-- Return codes of the LoRaWAN handler (`lorawan_result_t`). -/
inductive LorawanResult
  | success
  | errorInit
  | errorJoin
  | errorSend
  | errorBusy
  | errorNoNetwork
deriving DecidableEq

/-- Protocol states of the engine (`lorawan_state_t`). -/
inductive LorawanState
  | idle
  | joining
  | joined
  | sending
  | sleep
deriving DecidableEq

/-- Network session (`lorawan_session_t`): device address, session keys,
both frame counters (16-bit in the C struct) and the joined flag. -/
structure LorawanSession where
  dev_addr : Nat
  nwk_skey : List Nat
  app_skey : List Nat
  fcnt_up : Nat
  fcnt_down : Nat
  joined : Bool
deriving DecidableEq

/-- OTAA credentials (`lorawan_credentials_t`). -/
structure LorawanCredentials where
  dev_eui : List Nat
  app_eui : List Nat
  app_key : List Nat
deriving DecidableEq

/-- The engine's observable mutable state: the file-scope statics of
`lorawan_handler.c` (`lorawan_state`, `session`, `credentials`,
`last_tx_timestamp`, `last_rssi`, `last_snr`). -/
structure EngineState where
  lorawan_state : LorawanState
  session : LorawanSession
  credentials : LorawanCredentials
  last_tx_timestamp : Nat
  last_rssi : Int
  last_snr : Int
deriving DecidableEq

/-- Unsigned 32-bit subtraction `a - b` as C computes it on `uint32_t`
operands (wraparound modulo `2^32`). -/
def u32sub (a b : Nat) : Nat :=
  ((a % 4294967296) + 4294967296 - b % 4294967296) % 4294967296

/-- Frame built by `lorawan_send` (lines 143-174): MHDR `0x40`, DevAddr
little-endian, FCtrl `0x00`, FCnt little-endian, port, payload XOR-encrypted
with `app_skey`, and the fixed placeholder MIC `0x12345678` little-endian. -/
def lorawan_build_frame (s : EngineState) (data : List Nat) (port : Nat) :
    List Nat :=
  [0x40,
   s.session.dev_addr >>> 0 &&& 0xFF,
   s.session.dev_addr >>> 8 &&& 0xFF,
   s.session.dev_addr >>> 16 &&& 0xFF,
   s.session.dev_addr >>> 24 &&& 0xFF,
   0x00,
   s.session.fcnt_up >>> 0 &&& 0xFF,
   s.session.fcnt_up >>> 8 &&& 0xFF,
   port]
  ++ data.mapIdx (fun i b => b ^^^ s.session.app_skey.getD (i % 16) 0)
  ++ [0x78, 0x56, 0x34, 0x12]

/-- Result of one `lorawan_send` call: the returned code, the engine state
after the call, and the frame handed to `sx1262_send` (`none` when nothing
was transmitted). -/
structure SendOutcome where
  result : LorawanResult
  state : EngineState
  transmitted : Option (List Nat)
deriving DecidableEq

/-- Embedding of `lorawan_send` (lorawan_handler.c lines 128-193).  `now` is
the value `lorawan_get_timestamp()` returns at line 138; `rssi`/`snr` are the
radio readings taken after transmission.  The checks appear in source order:
not-joined-or-wrong-state, oversize payload, duty-cycle gap (99000 ms
minimum, computed in `uint32_t` arithmetic).  On success the uplink frame
counter is incremented (16-bit), the transmission timestamp and radio
readings are recorded, and the state returns to `joined`. -/
def lorawan_send (s : EngineState) (data : List Nat) (port : Nat)
    (now : Nat) (rssi snr : Int) : SendOutcome :=
  if s.session.joined = false ∨ s.lorawan_state ≠ LorawanState.joined then
    ⟨LorawanResult.errorNoNetwork, s, none⟩
  else if 242 < data.length then
    ⟨LorawanResult.errorSend, s, none⟩
  else if u32sub now s.last_tx_timestamp < 99000 then
    ⟨LorawanResult.errorBusy, s, none⟩
  else
    ⟨LorawanResult.success,
     { s with
       lorawan_state := LorawanState.joined,
       session := { s.session with
         fcnt_up := (s.session.fcnt_up + 1) % 65536 },
       last_tx_timestamp := now % 4294967296,
       last_rssi := rssi,
       last_snr := snr },
     some (lorawan_build_frame s data port)⟩

/-- Session-key derivation (`lorawan_generate_keys`): the C function ignores
its nonce parameters and XORs each application-key byte with `i+1` (network
session key) and `i+2` (application session key). -/
def lorawan_generate_keys (cred : LorawanCredentials) : List Nat × List Nat :=
  ((List.range 16).map (fun i => cred.app_key.getD i 0 ^^^ (i + 0x01)),
   (List.range 16).map (fun i => cred.app_key.getD i 0 ^^^ (i + 0x02)))

/-- Embedding of `lorawan_process_join_accept` (lines 360-387): rejects a
receive buffer shorter than 17 bytes, otherwise extracts the device address,
derives the session keys and resets both frame counters to zero. -/
def lorawan_process_join_accept (s : EngineState) (rx : List Nat) :
    LorawanResult × EngineState :=
  if rx.length < 17 then
    (LorawanResult.errorJoin, s)
  else
    let dev_addr :=
      (rx.getD 4 0 <<< 0) ||| (rx.getD 5 0 <<< 8) |||
      (rx.getD 6 0 <<< 16) ||| (rx.getD 7 0 <<< 24)
    let keys := lorawan_generate_keys s.credentials
    (LorawanResult.success,
     { s with session := { s.session with
         dev_addr := dev_addr,
         nwk_skey := keys.1,
         app_skey := keys.2,
         fcnt_up := 0,
         fcnt_down := 0 } })

/-- Success path of `lorawan_join` (lines 111-115): when
`lorawan_process_join_accept` succeeds, the session is marked joined and the
engine transitions to the `joined` state; otherwise the state produced by the
accept processing is returned unchanged together with the error code. -/
def lorawan_join_on_accept (s : EngineState) (rx : List Nat) :
    LorawanResult × EngineState :=
  let r := lorawan_process_join_accept s rx
  if r.1 = LorawanResult.success then
    (LorawanResult.success,
     { r.2 with
       lorawan_state := LorawanState.joined,
       session := { r.2.session with joined := true } })
  else
    r

/-- Embedding of `lorawan_sleep` (lines 243-246). -/
def lorawan_sleep_op (s : EngineState) : EngineState :=
  { s with lorawan_state := LorawanState.sleep }

/-- Embedding of `lorawan_wakeup` (lines 251-258). -/
def lorawan_wakeup_op (s : EngineState) : EngineState :=
  if s.session.joined then
    { s with lorawan_state := LorawanState.joined }
  else
    { s with lorawan_state := LorawanState.idle }

/-! ## Safety task emergency path (main_electrical.c) -/

/-- Safety flag bits of main_electrical.c lines 78-85. -/
def SAFETY_OVERVOLTAGE : Nat := 1 <<< 0

def SAFETY_UNDERVOLTAGE : Nat := 1 <<< 1

def SAFETY_OVERCURRENT : Nat := 1 <<< 2

def SAFETY_OVERPOWER : Nat := 1 <<< 3

def SAFETY_LOW_PF : Nat := 1 <<< 4

def SAFETY_HIGH_THD : Nat := 1 <<< 5

def SAFETY_FREQ_DEVIATION : Nat := 1 <<< 6

/-- Emergency payload built by `vSafetyTask` (main_electrical.c lines
115-125): marker `0xFF`, energy sector `0x01`, the alert bitmask, signature
`0xAA`, and the 32-bit tick timestamp big-endian. -/
def emergency_payload_electrical (safety_alert timestamp : Nat) : List Nat :=
  [0xFF, 0x01, safety_alert % 256, 0xAA,
   timestamp >>> 24 &&& 0xFF,
   timestamp >>> 16 &&& 0xFF,
   timestamp >>> 8 &&& 0xFF,
   timestamp &&& 0xFF]

/-- Emergency branch of `vSafetyTask` (main_electrical.c lines 113-128): when
the received alert bitmask has any of the catastrophic bits (over-voltage,
over-current, over-power) set, the task builds the emergency payload and
calls `lorawan_send` directly on port 99, bypassing the telemetry queue;
otherwise no transmission is attempted. -/
def vSafetyTask_emergency (s : EngineState) (safety_alert timestamp : Nat)
    (now : Nat) (rssi snr : Int) : Option SendOutcome :=
  if safety_alert &&& (SAFETY_OVERVOLTAGE ||| SAFETY_OVERCURRENT ||| SAFETY_OVERPOWER) ≠ 0 then
    some (lorawan_send s (emergency_payload_electrical safety_alert timestamp)
            99 now rssi snr)
  else
    none

/-! ## Concrete states used as test vectors -/

/-- Default OTAA credentials of lorawan_handler.c lines 40-45. -/
def default_credentials : LorawanCredentials :=
  ⟨[0x70, 0xB3, 0xD5, 0x7E, 0xD0, 0x06, 0x12, 0x34],
   [0x70, 0xB3, 0xD5, 0x7E, 0xD0, 0x06, 0x00, 0x01],
   [0x2B, 0x7E, 0x15, 0x16, 0x28, 0xAE, 0xD2, 0xA6,
    0xAB, 0xF7, 0x15, 0x88, 0x09, 0xCF, 0x4F, 0x3C]⟩

/-- Engine state immediately after `lorawan_init` (lines 59-89): state idle,
session zeroed and not joined, timestamp zero, RSSI -100, SNR -20. -/
def initState : EngineState :=
  ⟨LorawanState.idle,
   ⟨0, List.replicate 16 0, List.replicate 16 0, 0, 0, false⟩,
   default_credentials, 0, -100, -20⟩

/-- A minimal 17-byte join-accept buffer (all zero bytes). -/
def exampleJoinAccept : List Nat := List.replicate 17 0

/-- Engine state after a successful join from `initState`. -/
def joinedState : EngineState :=
  (lorawan_join_on_accept initState exampleJoinAccept).2

/-- State after one successful normal send from `joinedState` at timer value
99000 (the duty-cycle gap measured from the zero boot timestamp has just
elapsed). -/
def afterFirstSend : EngineState :=
  (lorawan_send joinedState [1] 10 99000 0 0).state

/-! ## Repeated normal sends within one session -/

/-- Runs `n` consecutive normal sends of a one-byte payload on port 10 from
`joinedState`, the k-th send happening at timer value `k * 99000` (so each
duty-cycle gap has exactly elapsed).  This models an uninterrupted session:
join once, then send repeatedly. -/
def iterate_send : Nat → EngineState
  | 0 => joinedState
  | n + 1 => (lorawan_send (iterate_send n) [1] 10 ((n + 1) * 99000) 0 0).state

/-! ## Electrical analysis (main_electrical.c) -/

/-- Power-factor computation of `vElectricalTask` (main_electrical.c lines
186-190), as a function of the already-computed active and apparent powers:
`active / apparent` when the apparent power exceeds 0.1, else the saturation
value 1.0. -/
def power_factor_calc (power_active power_apparent : ℚ) : ℚ :=
  if power_apparent > 1/10 then power_active / power_apparent else 1

/-- Modelled from the spec: `calculate_active_power` (declared in
`electrical_sensors.h`, implementation not under src/) — "Active power =
mean of the per-sample product of corrected voltage and current".  Inputs
are the corrected (offset-removed, scaled) per-sample voltage and current
values. -/
def calculate_active_power (volts amps : List ℚ) : ℚ :=
  (List.zipWith (· * ·) volts amps).sum / volts.length

/-- Power-quality grading (`calculate_power_quality_grade`, main_electrical.c
lines 485-501): starting from grade 0 (A), each crossed threshold band adds
one level — two THD bands, two power-factor bands, two frequency-deviation
bands — and the result is capped at 5 (F). -/
def calculate_power_quality_grade
    (thd_voltage thd_current power_factor frequency : ℚ) : Nat :=
  let grade : Nat :=
    (if thd_voltage > 3 ∨ thd_current > 3 then 1 else 0) +
    (if thd_voltage > 5 ∨ thd_current > 5 then 1 else 0) +
    (if power_factor < 95/100 then 1 else 0) +
    (if power_factor < 85/100 then 1 else 0) +
    (if frequency < 495/10 ∨ frequency > 505/10 then 1 else 0) +
    (if frequency < 49 ∨ frequency > 51 then 1 else 0)
  if grade > 5 then 5 else grade

/-! ## Leak detection (main_water.c) -/

/-- Leak-detection state: the 10-entry circular pressure history and the
write index (`pressure_history`, `pressure_index`, main_water.c lines
95-96). -/
structure LeakState where
  pressure_history : List ℚ
  pressure_index : Nat
deriving DecidableEq

/-- Result of one leak-detection cycle: updated state, the computed pressure
trend, and whether the emergency branch was taken. -/
structure LeakStepResult where
  state : LeakState
  pressure_trend : ℚ
  emergency : Bool
deriving DecidableEq

/-- Configured leak threshold (`water_config.leak_threshold = 0.5`,
main_water.c line 59); never reassigned elsewhere in the source. -/
def leak_threshold : ℚ := 1/2

/-- One cycle of `vLeakDetectionTask` (main_water.c lines 113-135): store the
current pressure at the write index, advance the index modulo 10, compute the
trend `(history[idx-1] - history[idx-3]) / 2` only when the advanced index is
at least 3 (otherwise the trend stays 0.0), and take the emergency branch
exactly when the trend is below the negated threshold. -/
def vLeakDetection_step (threshold : ℚ) (st : LeakState)
    (current_pressure : ℚ) : LeakStepResult :=
  let hist := st.pressure_history.set st.pressure_index current_pressure
  let idx := (st.pressure_index + 1) % 10
  let trend : ℚ :=
    if 3 ≤ idx then
      (hist.getD ((idx - 1 + 10) % 10) 0 - hist.getD ((idx - 3 + 10) % 10) 0) / 2
    else 0
  ⟨⟨hist, idx⟩, trend, decide (trend < -threshold)⟩

/-- Initial leak-detection state: the C statics are zero-initialized. -/
def leakInit : LeakState := ⟨List.replicate 10 0, 0⟩

/-- Folds a sequence of pressure readings through the leak-detection cycle,
returning the final state. -/
def runLeakSteps (threshold : ℚ) (st : LeakState) (ps : List ℚ) : LeakState :=
  ps.foldl (fun s p => (vLeakDetection_step threshold s p).state) st

/-! ## Helper lemmas about the send path -/

theorem iterate_send_succ (n : Nat) :
    iterate_send (n + 1) =
      (lorawan_send (iterate_send n) [1] 10 ((n + 1) * 99000) 0 0).state :=
  rfl

theorem u32sub_step (n : Nat) :
    u32sub ((n + 1) * 99000) ((n * 99000) % 4294967296) = 99000 := by
  unfold u32sub
  omega

/-- Helper: the exact outcome of a send whose guards all pass. -/
theorem lorawan_send_success_outcome (s : EngineState) (data : List Nat)
    (port now : Nat) (rssi snr : Int)
    (hj : s.session.joined = true)
    (hs : s.lorawan_state = LorawanState.joined)
    (hlen : data.length ≤ 242)
    (hgap : 99000 ≤ u32sub now s.last_tx_timestamp) :
    lorawan_send s data port now rssi snr =
      ⟨LorawanResult.success,
       { s with
         lorawan_state := LorawanState.joined,
         session := { s.session with
           fcnt_up := (s.session.fcnt_up + 1) % 65536 },
         last_tx_timestamp := now % 4294967296,
         last_rssi := rssi,
         last_snr := snr },
       some (lorawan_build_frame s data port)⟩ := by
  unfold lorawan_send
  rw [if_neg (by simp [hj, hs]), if_neg (by omega), if_neg (by omega)]

/-- Helper: a send attempted inside the duty-cycle gap from a joined engine
in the joined state fails busy with nothing changed. -/
theorem lorawan_send_busy_of_gap (s : EngineState) (data : List Nat)
    (port now : Nat) (rssi snr : Int)
    (hj : s.session.joined = true)
    (hs : s.lorawan_state = LorawanState.joined)
    (hlen : data.length ≤ 242)
    (hgap : u32sub now s.last_tx_timestamp < 99000) :
    lorawan_send s data port now rssi snr =
      ⟨LorawanResult.errorBusy, s, none⟩ := by
  unfold lorawan_send
  rw [if_neg (by simp [hj, hs]), if_neg (by omega), if_pos hgap]

/-- Invariant of the repeated-send session: the engine stays joined, the
recorded timestamp tracks the send times, and the frame counter equals the
number of sends so far reduced modulo 2^16. -/
theorem iterate_send_invariant (n : Nat) :
    (iterate_send n).session.joined = true ∧
    (iterate_send n).lorawan_state = LorawanState.joined ∧
    (iterate_send n).last_tx_timestamp = (n * 99000) % 4294967296 ∧
    (iterate_send n).session.fcnt_up = n % 65536 := by
  induction n with
  | zero =>
    refine ⟨by decide, by decide, by decide, by decide⟩
  | succ n ih =>
    obtain ⟨h1, h2, h3, h4⟩ := ih
    rw [iterate_send_succ,
      lorawan_send_success_outcome _ _ _ _ _ _ h1 h2 (by norm_num)
        (by rw [h3, u32sub_step])]
    refine ⟨h1, rfl, rfl, ?_⟩
    show ((iterate_send n).session.fcnt_up + 1) % 65536 = (n + 1) % 65536
    rw [h4]
    omega

/-- Helper: each iterated send call in the session actually succeeds. -/
theorem iterate_send_result (n : Nat) :
    (lorawan_send (iterate_send n) [1] 10 ((n + 1) * 99000) 0 0).result =
      LorawanResult.success := by
  obtain ⟨h1, h2, h3, h4⟩ := iterate_send_invariant n
  rw [lorawan_send_success_outcome _ _ _ _ _ _ h1 h2 (by norm_num)
    (by rw [h3, u32sub_step])]

/-! ## Claim theorems -/

/-- C3: for a joined engine in state `joined` with an in-range payload, a
send attempted while less than the 99000 ms minimum inter-transmission gap
has elapsed since the last recorded transmission returns busy without
transmitting and without changing the state, and a send attempted once the
gap has elapsed returns success and hands the built frame to the radio. -/
theorem C3_send_duty_cycle_gap (s : EngineState) (data : List Nat)
    (port now : Nat) (rssi snr : Int)
    (hj : s.session.joined = true)
    (hs : s.lorawan_state = LorawanState.joined)
    (hlen : data.length ≤ 242) :
    (u32sub now s.last_tx_timestamp < 99000 →
      lorawan_send s data port now rssi snr =
        ⟨LorawanResult.errorBusy, s, none⟩) ∧
    (99000 ≤ u32sub now s.last_tx_timestamp →
      (lorawan_send s data port now rssi snr).result = LorawanResult.success ∧
      (lorawan_send s data port now rssi snr).transmitted =
        some (lorawan_build_frame s data port)) := by
  constructor
  · intro hgap
    exact lorawan_send_busy_of_gap s data port now rssi snr hj hs hlen hgap
  · intro hgap
    rw [lorawan_send_success_outcome s data port now rssi snr hj hs hlen hgap]
    exact ⟨rfl, rfl⟩

/-- Witness for C3: after the first successful send of the session (at timer
value 99000) a second send at 110000 is inside the gap and is rejected
busy. -/
theorem C3_send_duty_cycle_gap_witness :
    (afterFirstSend.session.joined = true ∧
     afterFirstSend.lorawan_state = LorawanState.joined ∧
     ([2] : List Nat).length ≤ 242 ∧
     u32sub 110000 afterFirstSend.last_tx_timestamp < 99000) ∧
    lorawan_send afterFirstSend [2] 10 110000 0 0 =
      ⟨LorawanResult.errorBusy, afterFirstSend, none⟩ :=
  ⟨⟨by decide, by decide, by decide, by decide⟩,
   (C3_send_duty_cycle_gap afterFirstSend [2] 10 110000 0 0
     (by decide) (by decide) (by decide)).1 (by decide)⟩

/-- C4 counterexample: from the joined state, `lorawan_sleep` moves the
engine to the sleep state while the joined flag stays true; a send in that
state returns `errorNoNetwork`, not `errorBusy` as the claim states. -/
theorem C4_counterexample :
    (lorawan_sleep_op joinedState).session.joined = true ∧
    (lorawan_sleep_op joinedState).lorawan_state ≠ LorawanState.joined ∧
    (lorawan_send (lorawan_sleep_op joinedState) [1] 10 200000 0 0).result =
      LorawanResult.errorNoNetwork ∧
    (lorawan_send (lorawan_sleep_op joinedState) [1] 10 200000 0 0).result ≠
      LorawanResult.errorBusy := by
  refine ⟨by decide, by decide, by decide, by decide⟩

/-- C4 (amended): `lorawan_send` returns `errorNoNetwork` whenever the
joined flag is false, regardless of state, and also whenever the engine is
in a state other than `joined` — the wrong-state case is folded into the
same not-joined check and does not produce `errorBusy`. -/
theorem C4_amended_send_no_network (s : EngineState) (data : List Nat)
    (port now : Nat) (rssi snr : Int)
    (h : s.session.joined = false ∨ s.lorawan_state ≠ LorawanState.joined) :
    lorawan_send s data port now rssi snr =
      ⟨LorawanResult.errorNoNetwork, s, none⟩ := by
  unfold lorawan_send
  rw [if_pos h]

/-- Witness for the amended C4 at the freshly initialized (not joined)
state. -/
theorem C4_amended_send_no_network_witness :
    (initState.session.joined = false ∨
     initState.lorawan_state ≠ LorawanState.joined) ∧
    lorawan_send initState [1] 10 0 0 0 =
      ⟨LorawanResult.errorNoNetwork, initState, none⟩ :=
  ⟨Or.inl (by decide),
   C4_amended_send_no_network initState [1] 10 0 0 0 (Or.inl (by decide))⟩

/-- C9: whenever `lorawan_send` returns any error code, it transmits nothing
and leaves the whole engine state — session (address, keys, both counters,
joined flag), last-transmission timestamp, RSSI/SNR readings and protocol
state — exactly as before the call. -/
theorem C9_send_error_atomicity (s : EngineState) (data : List Nat)
    (port now : Nat) (rssi snr : Int)
    (h : (lorawan_send s data port now rssi snr).result ≠ LorawanResult.success) :
    (lorawan_send s data port now rssi snr).state = s ∧
    (lorawan_send s data port now rssi snr).transmitted = none := by
  by_cases h1 : s.session.joined = false ∨ s.lorawan_state ≠ LorawanState.joined
  · simp [lorawan_send, h1]
  · by_cases h2 : 242 < data.length
    · simp [lorawan_send, h1, h2]
    · by_cases h3 : u32sub now s.last_tx_timestamp < 99000
      · simp [lorawan_send, h1, h2, h3]
      · exact absurd (by simp [lorawan_send, h1, h2, h3]) h

/-- Witness for C9: the failing send from the not-yet-joined initial state
changes nothing and transmits nothing. -/
theorem C9_send_error_atomicity_witness :
    (lorawan_send initState [3] 10 0 0 0).result ≠ LorawanResult.success ∧
    ((lorawan_send initState [3] 10 0 0 0).state = initState ∧
     (lorawan_send initState [3] 10 0 0 0).transmitted = none) :=
  ⟨by decide, C9_send_error_atomicity initState [3] 10 0 0 0 (by decide)⟩

/-- C1 counterexample: an engine state reached by join followed by a
successful send at timer 99000; at timer 120000 less than the minimum gap
has elapsed, an over-voltage emergency alert is raised, and the emergency
transmission issued by `vSafetyTask` is rejected busy with nothing
transmitted — contradicting the claim that emergency sends are not subject
to the duty-cycle gap check. -/
theorem C1_counterexample :
    (lorawan_send joinedState [1] 10 99000 0 0).result = LorawanResult.success ∧
    u32sub 120000 afterFirstSend.last_tx_timestamp < 99000 ∧
    SAFETY_OVERVOLTAGE &&&
      (SAFETY_OVERVOLTAGE ||| SAFETY_OVERCURRENT ||| SAFETY_OVERPOWER) ≠ 0 ∧
    vSafetyTask_emergency afterFirstSend SAFETY_OVERVOLTAGE 0 120000 0 0 =
      some ⟨LorawanResult.errorBusy, afterFirstSend, none⟩ := by
  refine ⟨by decide, by decide, by decide, by decide⟩

/-- C1 (amended): when an emergency alert with a catastrophic bit is raised,
the safety task transmits it by calling `lorawan_send` directly from the
classifier caller (bypassing the telemetry mailbox), but that call goes
through the normal duty-cycle gap check: on a joined engine in the joined
state, inside the minimum inter-transmission gap, the emergency transmission
is rejected busy and nothing is transmitted. -/
theorem C1_amended_emergency_direct_but_gated (s : EngineState)
    (alert ts now : Nat) (rssi snr : Int)
    (halert : alert &&&
      (SAFETY_OVERVOLTAGE ||| SAFETY_OVERCURRENT ||| SAFETY_OVERPOWER) ≠ 0)
    (hj : s.session.joined = true)
    (hs : s.lorawan_state = LorawanState.joined)
    (hgap : u32sub now s.last_tx_timestamp < 99000) :
    vSafetyTask_emergency s alert ts now rssi snr =
      some (lorawan_send s (emergency_payload_electrical alert ts)
              99 now rssi snr) ∧
    vSafetyTask_emergency s alert ts now rssi snr =
      some ⟨LorawanResult.errorBusy, s, none⟩ := by
  have hdirect : vSafetyTask_emergency s alert ts now rssi snr =
      some (lorawan_send s (emergency_payload_electrical alert ts)
              99 now rssi snr) := by
    unfold vSafetyTask_emergency
    rw [if_pos halert]
  refine ⟨hdirect, ?_⟩
  rw [hdirect,
    lorawan_send_busy_of_gap s (emergency_payload_electrical alert ts)
      99 now rssi snr hj hs (by simp [emergency_payload_electrical]) hgap]

/-- Witness for the amended C1 at the state after the first send, inside the
gap at timer 120000. -/
theorem C1_amended_emergency_direct_but_gated_witness :
    (SAFETY_OVERCURRENT &&&
       (SAFETY_OVERVOLTAGE ||| SAFETY_OVERCURRENT ||| SAFETY_OVERPOWER) ≠ 0 ∧
     afterFirstSend.session.joined = true ∧
     afterFirstSend.lorawan_state = LorawanState.joined ∧
     u32sub 130000 afterFirstSend.last_tx_timestamp < 99000) ∧
    vSafetyTask_emergency afterFirstSend SAFETY_OVERCURRENT 5 130000 0 0 =
      some ⟨LorawanResult.errorBusy, afterFirstSend, none⟩ :=
  ⟨⟨by decide, by decide, by decide, by decide⟩,
   (C1_amended_emergency_direct_but_gated afterFirstSend SAFETY_OVERCURRENT
     5 130000 0 0 (by decide) (by decide) (by decide) (by decide)).2⟩

/-- C2 counterexample: from the joined state with the gap elapsed, an
over-current emergency transmission issued by the safety task succeeds and
increments the uplink frame counter from 0 to 1 — contradicting the claim
that emergency sends leave the uplink frame counter unchanged. -/
theorem C2_counterexample :
    joinedState.session.fcnt_up = 0 ∧
    vSafetyTask_emergency joinedState SAFETY_OVERCURRENT 7 99000 0 0 =
      some (lorawan_send joinedState
        (emergency_payload_electrical SAFETY_OVERCURRENT 7) 99 99000 0 0) ∧
    (lorawan_send joinedState
       (emergency_payload_electrical SAFETY_OVERCURRENT 7) 99 99000 0 0).result =
      LorawanResult.success ∧
    (lorawan_send joinedState
       (emergency_payload_electrical SAFETY_OVERCURRENT 7)
       99 99000 0 0).state.session.fcnt_up = 1 := by
  refine ⟨by decide, by decide, by decide, by decide⟩

/-- C2 (amended): after a successful join-accept the uplink frame counter is
0; every successful `lorawan_send` advances it by exactly 1 modulo 2^16 (the
counter is 16-bit); and an emergency transmission is an ordinary
`lorawan_send` call, so a successful emergency send advances the counter the
same way rather than leaving it unchanged. -/
theorem C2_amended_fcnt_discipline :
    (∀ (s : EngineState) (rx : List Nat),
       (lorawan_join_on_accept s rx).1 = LorawanResult.success →
       (lorawan_join_on_accept s rx).2.session.fcnt_up = 0) ∧
    (∀ (s : EngineState) (data : List Nat) (port now : Nat) (rssi snr : Int),
       (lorawan_send s data port now rssi snr).result = LorawanResult.success →
       (lorawan_send s data port now rssi snr).state.session.fcnt_up =
         (s.session.fcnt_up + 1) % 65536) ∧
    (∀ (s : EngineState) (alert ts now : Nat) (rssi snr : Int),
       vSafetyTask_emergency s alert ts now rssi snr = none ∨
       vSafetyTask_emergency s alert ts now rssi snr =
         some (lorawan_send s (emergency_payload_electrical alert ts)
                 99 now rssi snr)) := by
  refine ⟨?_, ?_, ?_⟩
  · intro s rx h
    by_cases hl : rx.length < 17
    · simp [lorawan_join_on_accept, lorawan_process_join_accept, hl] at h
    · simp [lorawan_join_on_accept, lorawan_process_join_accept, hl]
  · intro s data port now rssi snr h
    by_cases h1 : s.session.joined = false ∨ s.lorawan_state ≠ LorawanState.joined
    · simp [lorawan_send, h1] at h
    · by_cases h2 : 242 < data.length
      · simp [lorawan_send, h1, h2] at h
      · by_cases h3 : u32sub now s.last_tx_timestamp < 99000
        · simp [lorawan_send, h1, h2, h3] at h
        · simp [lorawan_send, h1, h2, h3]
  · intro s alert ts now rssi snr
    unfold vSafetyTask_emergency
    by_cases hc : alert &&&
        (SAFETY_OVERVOLTAGE ||| SAFETY_OVERCURRENT ||| SAFETY_OVERPOWER) ≠ 0
    · right
      rw [if_pos hc]
    · left
      rw [if_neg hc]

/-- Witness for the amended C2: the concrete join-accept yields counter 0
and the first concrete successful send advances it by one modulo 2^16. -/
theorem C2_amended_fcnt_discipline_witness :
    ((lorawan_join_on_accept initState exampleJoinAccept).1 =
       LorawanResult.success ∧
     (lorawan_join_on_accept initState exampleJoinAccept).2.session.fcnt_up = 0) ∧
    ((lorawan_send joinedState [1] 10 99000 0 0).result =
       LorawanResult.success ∧
     (lorawan_send joinedState [1] 10 99000 0 0).state.session.fcnt_up =
       (joinedState.session.fcnt_up + 1) % 65536) :=
  ⟨⟨by decide,
    C2_amended_fcnt_discipline.1 initState exampleJoinAccept (by decide)⟩,
   ⟨by decide,
    C2_amended_fcnt_discipline.2.1 joinedState [1] 10 99000 0 0 (by decide)⟩⟩

/-- C5 counterexample: within one uninterrupted session (one join followed
by successful sends only), the 65536th successful send is a single send
operation that takes the 16-bit uplink frame counter from 65535 back to 0,
making it smaller than before — contradicting unconditional monotonicity. -/
theorem C5_counterexample :
    (iterate_send 65535).session.fcnt_up = 65535 ∧
    iterate_send 65536 =
      (lorawan_send (iterate_send 65535) [1] 10 (65536 * 99000) 0 0).state ∧
    (lorawan_send (iterate_send 65535) [1] 10 (65536 * 99000) 0 0).result =
      LorawanResult.success ∧
    (iterate_send 65536).session.fcnt_up = 0 := by
  have h65535 := (iterate_send_invariant 65535).2.2.2
  have h65536 := (iterate_send_invariant 65536).2.2.2
  have hstep := iterate_send_succ 65535
  have hres := iterate_send_result 65535
  norm_num at h65535 h65536 hstep hres
  exact ⟨h65535, hstep, hres, h65536⟩

/-- C5 (amended): across any single `lorawan_send` call on a session whose
counter is in its 16-bit range, the uplink frame counter never decreases,
except for the forced 16-bit wraparound step from 65535 to 0; so the counter
is monotonically non-decreasing for as long as fewer than 2^16 successful
sends have occurred in the session. -/
theorem C5_amended_fcnt_monotone (s : EngineState) (data : List Nat)
    (port now : Nat) (rssi snr : Int)
    (hbound : s.session.fcnt_up < 65536) :
    s.session.fcnt_up ≤
      (lorawan_send s data port now rssi snr).state.session.fcnt_up ∨
    (s.session.fcnt_up = 65535 ∧
     (lorawan_send s data port now rssi snr).state.session.fcnt_up = 0) := by
  by_cases h1 : s.session.joined = false ∨ s.lorawan_state ≠ LorawanState.joined
  · left
    simp [lorawan_send, h1]
  · by_cases h2 : 242 < data.length
    · left
      simp [lorawan_send, h1, h2]
    · by_cases h3 : u32sub now s.last_tx_timestamp < 99000
      · left
        simp [lorawan_send, h1, h2, h3]
      · have : (lorawan_send s data port now rssi snr).state.session.fcnt_up =
            (s.session.fcnt_up + 1) % 65536 := by
          simp [lorawan_send, h1, h2, h3]
        rw [this]
        omega

/-- Witness for the amended C5 at the joined state with counter 0. -/
theorem C5_amended_fcnt_monotone_witness :
    joinedState.session.fcnt_up < 65536 ∧
    (joinedState.session.fcnt_up ≤
       (lorawan_send joinedState [1] 10 99000 0 0).state.session.fcnt_up ∨
     (joinedState.session.fcnt_up = 65535 ∧
      (lorawan_send joinedState [1] 10 99000 0 0).state.session.fcnt_up = 0)) :=
  ⟨by decide, C5_amended_fcnt_monotone joinedState [1] 10 99000 0 0 (by decide)⟩

/-- Helper: capping at five is monotone. -/
theorem cap_at_five_mono {a b : Nat} (h : a ≤ b) :
    (if a > 5 then 5 else a) ≤ (if b > 5 then 5 else b) := by
  split <;> split <;> omega

/-- Helper: the capped value never exceeds five. -/
theorem cap_at_five_le {a : Nat} : (if a > 5 then 5 else a) ≤ 5 := by
  split <;> omega

/-- Helper: an indicator step is monotone when its condition is implied. -/
theorem ite_one_zero_mono {P Q : Prop} [Decidable P] [Decidable Q]
    (h : P → Q) : (if P then (1 : Nat) else 0) ≤ (if Q then 1 else 0) := by
  by_cases hP : P
  · rw [if_pos hP, if_pos (h hP)]
  · by_cases hQ : Q
    · rw [if_neg hP, if_pos hQ]
      omega
    · rw [if_neg hP, if_neg hQ]

/-- Helper: a two-sided frequency band expressed through the deviation from
the 50 Hz nominal. -/
theorem freq_band_lt_abs {f c : ℚ} (h : f < 50 - c ∨ 50 + c < f) :
    c < |f - 50| := by
  rcases h with h | h
  · rw [lt_abs]
    right
    linarith
  · rw [lt_abs]
    left
    linarith

/-- Helper: converse direction of `freq_band_lt_abs`. -/
theorem lt_abs_freq_band {f c : ℚ} (h : c < |f - 50|) :
    f < 50 - c ∨ 50 + c < f := by
  rcases lt_abs.mp h with h | h
  · right
    linarith
  · left
    linarith

/-- C6 counterexample: an analysis cycle with active power -1 (such a value
arises from the spec-modelled mean of voltage-current products, e.g. constant
voltage 1 against constant current -1) and reactive power 0 has apparent
power 1, which satisfies the apparent-power equation and exceeds 0.1, and the
computed power factor is -1, outside the claimed interval [0.0, 1.0]. -/
theorem C6_counterexample :
    (0:ℚ) ≤ 1 ∧ ((1:ℚ)^2 = (-1)^2 + 0^2) ∧
    calculate_active_power [1, 1, 1, 1] [-1, -1, -1, -1] = -1 ∧
    power_factor_calc (-1) 1 = -1 ∧
    ¬ (0 ≤ power_factor_calc (-1) 1) := by
  norm_num [power_factor_calc, calculate_active_power, List.zipWith]

/-- C6 (amended): for every analysis cycle — apparent power the nonnegative
square root of active squared plus reactive squared — the computed power
factor lies in [-1.0, 1.0]; it lies in [0.0, 1.0] whenever the active power
is nonnegative; and whenever the apparent power is below 0.1 it is exactly
1.0 (the saturation convention of the source). -/
theorem C6_amended_power_factor_range (a r s : ℚ) (hs : 0 ≤ s)
    (heq : s^2 = a^2 + r^2) :
    (-1 ≤ power_factor_calc a s ∧ power_factor_calc a s ≤ 1) ∧
    (0 ≤ a → 0 ≤ power_factor_calc a s) ∧
    (s < 1/10 → power_factor_calc a s = 1) := by
  unfold power_factor_calc
  by_cases hgt : s > 1/10
  · rw [if_pos hgt]
    have hspos : (0:ℚ) < s := by linarith
    have hle : a ≤ s := by nlinarith [sq_nonneg r, sq_nonneg (a - s)]
    have hge : -s ≤ a := by nlinarith [sq_nonneg r, sq_nonneg (a + s)]
    refine ⟨⟨?_, ?_⟩, ?_, ?_⟩
    · rw [le_div_iff₀ hspos]
      linarith
    · rw [div_le_one hspos]
      exact hle
    · intro ha
      exact div_nonneg ha hspos.le
    · intro hlt
      exact absurd hlt (by linarith)
  · rw [if_neg hgt]
    refine ⟨⟨by norm_num, by norm_num⟩, fun _ => by norm_num, fun _ => rfl⟩

/-- Witness for the amended C6 at active 0, reactive 0, apparent 0 (the
saturation branch). -/
theorem C6_amended_power_factor_range_witness :
    ((0:ℚ) ≤ 0 ∧ (0:ℚ)^2 = 0^2 + 0^2) ∧
    ((-1 ≤ power_factor_calc 0 0 ∧ power_factor_calc 0 0 ≤ 1) ∧
     (0 ≤ (0:ℚ) → 0 ≤ power_factor_calc 0 0) ∧
     ((0:ℚ) < 1/10 → power_factor_calc 0 0 = 1)) :=
  ⟨⟨by norm_num, by norm_num⟩,
   C6_amended_power_factor_range 0 0 0 (by norm_num) (by norm_num)⟩

/-- C7: the power quality grade value is monotonically non-decreasing (that
is, the letter grade is non-increasing) as either distortion figure
increases, as the power factor decreases, or as the frequency deviation from
the 50 Hz nominal increases; and the grade value never exceeds the worst
grade 5 (F). -/
theorem C7_quality_grade_monotone_capped
    (tv tc pf f tv2 tc2 pf2 f2 : ℚ)
    (htv : tv ≤ tv2) (htc : tc ≤ tc2) (hpf : pf2 ≤ pf)
    (hf : |f - 50| ≤ |f2 - 50|) :
    calculate_power_quality_grade tv tc pf f ≤
      calculate_power_quality_grade tv2 tc2 pf2 f2 ∧
    calculate_power_quality_grade tv2 tc2 pf2 f2 ≤ 5 := by
  have i1 : (tv > 3 ∨ tc > 3) → (tv2 > 3 ∨ tc2 > 3) := by
    rintro (h | h)
    · left
      linarith
    · right
      linarith
  have i2 : (tv > 5 ∨ tc > 5) → (tv2 > 5 ∨ tc2 > 5) := by
    rintro (h | h)
    · left
      linarith
    · right
      linarith
  have i3 : pf < 95/100 → pf2 < 95/100 := by
    intro h
    linarith
  have i4 : pf < 85/100 → pf2 < 85/100 := by
    intro h
    linarith
  have i5 : (f < 495/10 ∨ f > 505/10) → (f2 < 495/10 ∨ f2 > 505/10) := by
    intro h
    have h1 : (1:ℚ)/2 < |f - 50| := by
      apply freq_band_lt_abs
      rcases h with h | h
      · left
        linarith
      · right
        linarith
    have h2 : (1:ℚ)/2 < |f2 - 50| := lt_of_lt_of_le h1 hf
    rcases lt_abs_freq_band h2 with h3 | h3
    · left
      linarith
    · right
      linarith
  have i6 : (f < 49 ∨ f > 51) → (f2 < 49 ∨ f2 > 51) := by
    intro h
    have h1 : (1:ℚ) < |f - 50| := by
      apply freq_band_lt_abs
      rcases h with h | h
      · left
        linarith
      · right
        linarith
    have h2 : (1:ℚ) < |f2 - 50| := lt_of_lt_of_le h1 hf
    rcases lt_abs_freq_band h2 with h3 | h3
    · left
      linarith
    · right
      linarith
  have hsum :
      (if tv > 3 ∨ tc > 3 then (1:Nat) else 0) +
      (if tv > 5 ∨ tc > 5 then 1 else 0) +
      (if pf < 95/100 then 1 else 0) +
      (if pf < 85/100 then 1 else 0) +
      (if f < 495/10 ∨ f > 505/10 then 1 else 0) +
      (if f < 49 ∨ f > 51 then 1 else 0) ≤
      (if tv2 > 3 ∨ tc2 > 3 then (1:Nat) else 0) +
      (if tv2 > 5 ∨ tc2 > 5 then 1 else 0) +
      (if pf2 < 95/100 then 1 else 0) +
      (if pf2 < 85/100 then 1 else 0) +
      (if f2 < 495/10 ∨ f2 > 505/10 then 1 else 0) +
      (if f2 < 49 ∨ f2 > 51 then 1 else 0) :=
    Nat.add_le_add
      (Nat.add_le_add
        (Nat.add_le_add
          (Nat.add_le_add
            (Nat.add_le_add (ite_one_zero_mono i1) (ite_one_zero_mono i2))
            (ite_one_zero_mono i3))
          (ite_one_zero_mono i4))
        (ite_one_zero_mono i5))
      (ite_one_zero_mono i6)
  simp only [calculate_power_quality_grade]
  exact ⟨cap_at_five_mono hsum, cap_at_five_le⟩

/-- Witness for C7 at equal clean inputs on both sides. -/
theorem C7_quality_grade_monotone_capped_witness :
    ((0:ℚ) ≤ 0 ∧ (0:ℚ) ≤ 0 ∧ (1:ℚ) ≤ 1 ∧ |(50:ℚ) - 50| ≤ |(50:ℚ) - 50|) ∧
    (calculate_power_quality_grade 0 0 1 50 ≤
       calculate_power_quality_grade 0 0 1 50 ∧
     calculate_power_quality_grade 0 0 1 50 ≤ 5) :=
  ⟨⟨le_refl 0, le_refl 0, le_refl 1, le_refl _⟩,
   C7_quality_grade_monotone_capped 0 0 1 50 0 0 1 50
     le_rfl le_rfl le_rfl le_rfl⟩

/-- C8: the leak-detection emergency branch is taken exactly when the
computed trend falls below the negated threshold, independently of the
absolute pressure; and on the pressure history 10.0, 10.0, 10.0, 9.0, 7.9
(most recent last) with threshold 0.5 the computed trend is -1.05 — negative
with magnitude exceeding 0.5 — and the emergency alert is produced. -/
theorem C8_leak_trend_classification :
    (∀ (threshold : ℚ) (st : LeakState) (p : ℚ),
       ((vLeakDetection_step threshold st p).emergency = true ↔
        (vLeakDetection_step threshold st p).pressure_trend < -threshold)) ∧
    ((vLeakDetection_step leak_threshold
        (runLeakSteps leak_threshold leakInit [10, 10, 10, 9])
        (79/10)).pressure_trend = -21/20 ∧
     (vLeakDetection_step leak_threshold
        (runLeakSteps leak_threshold leakInit [10, 10, 10, 9])
        (79/10)).pressure_trend < 0 ∧
     leak_threshold <
       |(vLeakDetection_step leak_threshold
          (runLeakSteps leak_threshold leakInit [10, 10, 10, 9])
          (79/10)).pressure_trend| ∧
     (vLeakDetection_step leak_threshold
        (runLeakSteps leak_threshold leakInit [10, 10, 10, 9])
        (79/10)).emergency = true) := by
  have hiff : ∀ (threshold : ℚ) (st : LeakState) (p : ℚ),
      ((vLeakDetection_step threshold st p).emergency = true ↔
       (vLeakDetection_step threshold st p).pressure_trend < -threshold) := by
    intro threshold st p
    simp [vLeakDetection_step]
  have htrend : (vLeakDetection_step leak_threshold
      (runLeakSteps leak_threshold leakInit [10, 10, 10, 9])
      (79/10)).pressure_trend = -21/20 := by
    norm_num [runLeakSteps, vLeakDetection_step, leakInit, leak_threshold,
      List.foldl, List.set, List.getD, List.get?, List.replicate]
  refine ⟨hiff, htrend, ?_, ?_, ?_⟩
  · rw [htrend]
    norm_num
  · rw [htrend, abs_of_neg (by norm_num : (-21/20 : ℚ) < 0)]
    norm_num [leak_threshold]
  · rw [hiff, htrend]
    norm_num [leak_threshold]

/-- C10: whenever the advanced circular-history index is 0, 1 or 2 — which
includes every cycle immediately after the 10-entry buffer wraps around —
the pressure trend of the cycle stays 0.0 and, for any nonnegative
configured threshold, no trend-based leak emergency is raised no matter what
the current pressure reading is. -/
theorem C10_no_trend_emergency_low_index (threshold : ℚ) (st : LeakState)
    (p : ℚ) (hthr : 0 ≤ threshold)
    (hidx : (st.pressure_index + 1) % 10 < 3) :
    (vLeakDetection_step threshold st p).pressure_trend = 0 ∧
    (vLeakDetection_step threshold st p).emergency = false := by
  have h3 : ¬ (3 ≤ (st.pressure_index + 1) % 10) := by omega
  constructor
  · simp [vLeakDetection_step, h3]
  · simp [vLeakDetection_step, h3]
    linarith

/-- Witness for C10 at the wraparound point: index 9 advances to 0, so the
steep drop to pressure 3 yields no trend and no emergency. -/
theorem C10_no_trend_emergency_low_index_witness :
    ((0:ℚ) ≤ leak_threshold ∧
     ((⟨List.replicate 10 0, 9⟩ : LeakState).pressure_index + 1) % 10 < 3) ∧
    ((vLeakDetection_step leak_threshold ⟨List.replicate 10 0, 9⟩ 3).pressure_trend = 0 ∧
     (vLeakDetection_step leak_threshold ⟨List.replicate 10 0, 9⟩ 3).emergency = false) :=
  ⟨⟨by norm_num [leak_threshold], by norm_num⟩,
   C10_no_trend_emergency_low_index leak_threshold ⟨List.replicate 10 0, 9⟩ 3
     (by norm_num [leak_threshold]) (by norm_num)⟩
